import Mathlib

/-!
Verification development for the Coinglass liquidation-heatmap capture actor
(`src/main.py` of the repository, the Apify/Playwright pipeline).

The Python source drives a browser page.  We embed it shallowly: every
interaction with the browser-automation capability (navigation outcome,
network-response correlation, pixel sampling, element visibility, bounding
boxes, screenshot bytes, raised exceptions) is an oracle recorded in a
`World` value, and each source function becomes a total Lean function from
the `World` (plus its ordinary arguments) to its result together with a
trace of observable events (listener arming, clicks, capture attempts, log
lines).  Awaited Playwright calls that can raise are modelled as
`Except Err` oracles; Python `try`/`except` becomes a `match` on those
oracles.  `page.expect_response(pred) as info` arms a listener on entry to
the `async with` block, and — as in Playwright's async implementation,
whose `__aexit__` is `await self._event.value` — the exit of the block
awaits the correlated response, raising `Err.timeout` when no matching
response arrived within the timeout; a later explicit
`await info.value` merely reads the already-resolved value.
Floating-point fill ratios and bounding-box sizes are embedded as `ℚ`
(every comparison performed by the source is order-theoretic, so `ℚ` is
faithful at the values the program compares).
-/

unseal Rat.add Rat.sub Rat.mul Rat.inv Rat.ofScientific

/-- Exceptions that the modelled Playwright calls can raise: a wait/correlation
timeout, or any other raised exception. -/
inductive Err
  | timeout
  | fail
deriving DecidableEq, Repr

/-- Observable events of one pipeline run, in program order: arming the
network-response listener, issuing the navigation, awaiting the correlated
response, running the render-stability wait, each UI interaction of the two
selection procedures, each capture attempt, and log lines (info / warning /
error). The option-click events carry the accessible label the source clicks. -/
inductive Ev
  | arm
  | gotoCall
  | awaitValue
  | canvasWait
  | pairComboClick
  | pairListboxWait
  | pairOptionClick (label : String)
  | timeComboClick
  | timeListboxWait
  | timeOptionClick (label : String)
  | captureCanvasTry
  | captureContainerTry
  | logInfo
  | logWarn
  | logError
deriving DecidableEq, Repr

/-- One poll of the drawing surface, i.e. one evaluation of the in-page
sampling script: either the evaluation raised (`exc`), or it returned the
JS object `{ready, ratio}` (`probe ready r`). -/
inductive Sample
  | exc
  | probe (ready : Bool) (r : ℚ)
deriving DecidableEq, Repr

/-- A network response as seen by the predicate: URL and status code. -/
structure Response where
  url : String
  status : ℕ
deriving DecidableEq, Repr

/-- Char-list version of `String.startsWith`. -/
def listStartsWith : List Char → List Char → Bool
  | [], _ => true
  | _ :: _, [] => false
  | a :: as, b :: bs => a == b && listStartsWith as bs

/-- Does `needle` occur as a contiguous run inside the second list?
(Embedding of Python's `in` on strings.) -/
def listHasSub (needle : List Char) : List Char → Bool
  | [] => needle.isEmpty
  | c :: rest => listStartsWith needle (c :: rest) || listHasSub needle rest

/-- Python `needle in hay` for strings. -/
def strContains (hay needle : String) : Bool :=
  listHasSub needle.toList hay.toList

/-- Source constant `TIME_RANGE_MAP`: the insertion-ordered mapping from
short time-range keys to display labels. -/
def TIME_RANGE_MAP : List (String × String) :=
  [("12h", "12 hour"),
   ("24h", "24 hour"),
   ("48h", "48 hour"),
   ("3d", "3 day"),
   ("1w", "1 week"),
   ("2w", "2 week"),
   ("1m", "1 month"),
   ("3m", "3 month"),
   ("6m", "6 month"),
   ("1y", "1 Year")]

/-- Python `dict.get` on the insertion-ordered association list. -/
def mapGet (m : List (String × String)) (k : String) : Option String :=
  match m with
  | [] => none
  | (k', v) :: rest => if k' == k then some v else mapGet rest k

/-- Source constant `HEATMAP_API_KEYWORD`. -/
def HEATMAP_API_KEYWORD : String := "liqHeatMap"

/-- Source constant `API_TIMEOUT_MS`. -/
def API_TIMEOUT_MS : ℕ := 30000

/-- Source constant `LISTBOX_TIMEOUT_MS`. -/
def LISTBOX_TIMEOUT_MS : ℕ := 3000

/-- Source `is_heatmap_response`: URL contains the heatmap API keyword and
the status equals 200. -/
def is_heatmap_response (response : Response) : Bool :=
  strContains response.url HEATMAP_API_KEYWORD && (response.status == 200)

/-- The body of the source `wait_for_canvas_ready` polling loop, one list
element per iteration (per poll); `lastv` is `last_fill_ratio`, `stable` is
`stable_count`.  An `exc` sample is the `except Exception: pass` path; a
`probe` sample is the evaluated `{ready, ratio}` object.  Running out of
samples is the `while` clock expiring, which returns `false`. -/
def canvasLoop : List Sample → ℚ → ℕ → Bool
  | [], _, _ => false
  | .exc :: rest, lastv, stable => canvasLoop rest lastv stable
  | .probe ready r :: rest, lastv, stable =>
    if ready && decide ((1 : ℚ)/10 < r) then
      if |r - lastv| < 1/100 then
        if 2 ≤ stable + 1 then true
        else canvasLoop rest r (stable + 1)
      else canvasLoop rest r 0
    else canvasLoop rest lastv stable

/-- Source `wait_for_canvas_ready`: the loop starts with
`last_fill_ratio = -1` and `stable_count = 0`. -/
def wait_for_canvas_ready (samples : List Sample) : Bool :=
  canvasLoop samples (-1) 0

/-- A sample is content-present when it evaluated successfully with
`ready` and fill ratio above `0.1` (the source's
`result["ready"] and result["ratio"] > 0.1`). -/
def contentPresent : Sample → Bool
  | .exc => false
  | .probe ready r => ready && decide ((1 : ℚ)/10 < r)

/-- Modelled from the spec (§4.2), for comparison with the source loop: the
spec asserts that a sampling error "resets the stability counter" before the
loop continues; this variant differs from `canvasLoop` only on `exc`
samples, where it sets `stable_count` back to `0`. -/
def canvasLoopSpecReset : List Sample → ℚ → ℕ → Bool
  | [], _, _ => false
  | .exc :: rest, lastv, _ => canvasLoopSpecReset rest lastv 0
  | .probe ready r :: rest, lastv, stable =>
    if ready && decide ((1 : ℚ)/10 < r) then
      if |r - lastv| < 1/100 then
        if 2 ≤ stable + 1 then true
        else canvasLoopSpecReset rest r (stable + 1)
      else canvasLoopSpecReset rest r 0
    else canvasLoopSpecReset rest lastv stable

/-- Source `get_time_label`: resolve a time-range key through
`TIME_RANGE_MAP`; an absent (or falsy) label logs a warning and falls back
to `("24h", "24 hour")`.  Returns the resolved pair together with the log
events it emits. -/
def get_time_label (time_range : String) : (String × String) × List Ev :=
  match mapGet TIME_RANGE_MAP time_range with
  | some label => if label ≠ "" then ((time_range, label), []) else (("24h", "24 hour"), [Ev.logWarn])
  | none => (("24h", "24 hour"), [Ev.logWarn])

/-- Samples describing a surface that promptly renders and stays stable:
the default value for the canvas oracles of an untroubled run. -/
def stableSamples : List Sample :=
  [.probe true (3/10), .probe true (3/10), .probe true (3/10)]

/-- The browser-side oracle for one run: one field per awaited Playwright
call site, giving that call's outcome (`Except Err` models a call that can
raise; the two correlation `Bool`s say whether a response matching
`is_heatmap_response` arrives within `API_TIMEOUT_MS` of the listener being
armed at that site).  Defaults describe an untroubled run. -/
structure World where
  /-- Outcome of `page.goto`: raised, or returned `None`, or a response status. -/
  goto : Except Err (Option ℕ) := .ok (some 200)
  /-- Does the initial heatmap API response arrive within the timeout? -/
  initialApi : Bool := true
  /-- Poll samples for the initial `wait_for_canvas_ready`. -/
  initialCanvas : List Sample := stableSamples
  /-- Outcome of clicking the pair search combobox. -/
  pairCombo : Except Err Unit := .ok ()
  /-- Outcome of waiting for the pair listbox to become visible. -/
  pairListbox : Except Err Unit := .ok ()
  /-- Outcome of clicking the pair option. -/
  pairClick : Except Err Unit := .ok ()
  /-- Does the correlated heatmap response arrive after the pair click? -/
  pairApi : Bool := true
  /-- Poll samples for the post-pair-selection `wait_for_canvas_ready`. -/
  pairCanvas : List Sample := stableSamples
  /-- Outcome of clicking the time-range combobox. -/
  timeCombo : Except Err Unit := .ok ()
  /-- Outcome of waiting for the time-range listbox to become visible. -/
  timeListbox : Except Err Unit := .ok ()
  /-- Outcome of clicking the time-range option. -/
  timeClick : Except Err Unit := .ok ()
  /-- Does the correlated heatmap response arrive after the time-range click? -/
  timeApi : Bool := true
  /-- Poll samples for the post-time-selection `wait_for_canvas_ready`. -/
  timeCanvas : List Sample := stableSamples
  /-- Outcome of `canvas.is_visible()` for the first canvas element. -/
  canvasVisible : Except Err Bool := .ok true
  /-- Outcome of `canvas.bounding_box()`: raised, or `None`, or (width, height). -/
  canvasBox : Except Err (Option (ℚ × ℚ)) := .ok (some (800, 600))
  /-- Outcome of `canvas.screenshot()`: raised, or the PNG bytes. -/
  canvasShot : Except Err (List ℕ) := .ok [1]
  /-- Outcome of `container.is_visible(timeout=2000)`. -/
  containerVisible : Except Err Bool := .ok true
  /-- Outcome of `container.screenshot()`. -/
  containerShot : Except Err (List ℕ) := .ok [2]
  /-- The public URL the key-value store reports for the stored file. -/
  publicUrl : String := "https://kvs.example/screenshot.png"

/-- Source `wait_for_heatmap_update`: arm the response listener
(`expect_response` entered), run the action, and await the correlated
response (at the block exit; the explicit `await response_info.value`
then reads the resolved value), raising `Err.timeout` when no matching
response arrived within the timeout.  `actionOutcome`/`actionTrace` are the
result and the observable events of awaiting `action()`. -/
def wait_for_heatmap_update (apiArrives : Bool) (actionOutcome : Except Err Unit)
    (actionTrace : List Ev) : Except Err Unit × List Ev :=
  match actionOutcome with
  | .error e => (.error e, Ev.arm :: actionTrace)
  | .ok _ =>
    if apiArrives then (.ok (), Ev.arm :: actionTrace ++ [Ev.awaitValue])
    else (.error Err.timeout, Ev.arm :: actionTrace ++ [Ev.awaitValue])

/-- Source `wait_canvas_or_warn`: run the render-stability wait; log the
success message (when one is supplied) on `true`, the timeout message as a
warning on `false`.  Never raises. -/
def wait_canvas_or_warn (samples : List Sample) (hasSuccessMessage : Bool) : List Ev :=
  Ev.canvasWait ::
    (if wait_for_canvas_ready samples then
      (if hasSuccessMessage then [Ev.logInfo] else [])
    else [Ev.logWarn])

/-- The tail of source `open_heatmap_page` after the (already resolved)
correlation and the status check: the explicit `await response_info.value`
reads the resolved value, then log and run the initial render-stability
wait. -/
def open_heatmap_rest (w : World) : Except Err Bool × List Ev :=
  (.ok true,
    [Ev.arm, Ev.gotoCall, Ev.awaitValue, Ev.logInfo] ++ wait_canvas_or_warn w.initialCanvas true)

/-- Source `open_heatmap_page`: arm the listener and navigate inside the
`expect_response` block.  The block exit awaits the correlated initial API
response — raising `Err.timeout` (before the status check is ever reached)
when no matching response arrived within the timeout, and letting a `goto`
error propagate when one did.  After a resolved correlation, a navigation
response that is non-null with status `>= 400` logs an error and returns
`False`; otherwise continue with `open_heatmap_rest`. -/
def open_heatmap_page (w : World) : Except Err Bool × List Ev :=
  match w.goto with
  | .error e =>
    if w.initialApi then (.error e, [Ev.arm, Ev.gotoCall, Ev.awaitValue])
    else (.error Err.timeout, [Ev.arm, Ev.gotoCall, Ev.awaitValue])
  | .ok navResp =>
    if w.initialApi then
      match navResp with
      | some st =>
        if 400 ≤ st then (.ok false, [Ev.arm, Ev.gotoCall, Ev.awaitValue, Ev.logError])
        else open_heatmap_rest w
      | none => open_heatmap_rest w
    else (.error Err.timeout, [Ev.arm, Ev.gotoCall, Ev.awaitValue])

/-- The accessible name of the pair option the source clicks:
`f"{exchange} {coin}/{quote_currency} Perpetual"`. -/
def pair_name (exchange coin quote_currency : String) : String :=
  exchange ++ " " ++ coin ++ "/" ++ quote_currency ++ " Perpetual"

/-- Source `select_pair`: skip when the exchange is `Binance` and the quote
currency is `USDT` (the coin is not consulted — it is already fixed by the
page URL); otherwise click the search combobox, wait for the listbox, click
the pair option under the correlated-reload listener, and run the
render-stability wait; any exception in those steps is caught and logged as
a warning. -/
def select_pair (w : World) (coin exchange quote_currency : String) : List Ev :=
  if exchange == "Binance" && quote_currency == "USDT" then []
  else
    [Ev.logInfo, Ev.pairComboClick] ++
      match w.pairCombo with
      | .error _ => [Ev.logWarn]
      | .ok _ =>
        Ev.pairListboxWait ::
          match w.pairListbox with
          | .error _ => [Ev.logWarn]
          | .ok _ =>
            match wait_for_heatmap_update w.pairApi w.pairClick
                [Ev.pairOptionClick (pair_name exchange coin quote_currency)] with
            | (.error _, wtr) => wtr ++ [Ev.logWarn]
            | (.ok _, wtr) => wtr ++ [Ev.logInfo] ++ wait_canvas_or_warn w.pairCanvas false

/-- Source `select_time_range`: resolve the key through `get_time_label`,
skip when the resolved key is `24h`, otherwise click the time combobox, wait
for the listbox, click the resolved label under the correlated-reload
listener, and run the render-stability wait; any exception in those steps is
caught and logged as a warning.  Returns the resolved key. -/
def select_time_range (w : World) (time_range : String) : String × List Ev :=
  match get_time_label time_range with
  | ((tr, label), gtlTrace) =>
    if tr == "24h" then (tr, gtlTrace)
    else
      (tr,
        gtlTrace ++ [Ev.logInfo, Ev.timeComboClick] ++
          match w.timeCombo with
          | .error _ => [Ev.logWarn]
          | .ok _ =>
            Ev.timeListboxWait ::
              match w.timeListbox with
              | .error _ => [Ev.logWarn]
              | .ok _ =>
                match wait_for_heatmap_update w.timeApi w.timeClick
                    [Ev.timeOptionClick label] with
                | (.error _, wtr) => wtr ++ [Ev.logWarn]
                | (.ok _, wtr) => wtr ++ [Ev.logInfo] ++ wait_canvas_or_warn w.timeCanvas false)

/-- Source `capture_canvas_screenshot` (strategy A): require the first
canvas element to be visible with a bounding box strictly wider than 500 and
taller than 300, then screenshot it; any raised exception is caught, logged
as an error, and turned into `None`. -/
def capture_canvas_screenshot (w : World) : Option (List ℕ) × List Ev :=
  match w.canvasVisible with
  | .error _ => (none, [Ev.captureCanvasTry, Ev.logError])
  | .ok false => (none, [Ev.captureCanvasTry])
  | .ok true =>
    match w.canvasBox with
    | .error _ => (none, [Ev.captureCanvasTry, Ev.logError])
    | .ok none => (none, [Ev.captureCanvasTry])
    | .ok (some (bw, bh)) =>
      if bw ≤ 500 ∨ bh ≤ 300 then (none, [Ev.captureCanvasTry])
      else
        match w.canvasShot with
        | .error _ => (none, [Ev.captureCanvasTry, Ev.logError])
        | .ok data => (some data, [Ev.captureCanvasTry, Ev.logInfo])

/-- Source `capture_container_screenshot` (strategy B): heuristically locate
the chart container, require it visible, and screenshot it; any raised
exception is caught, logged as an error, and turned into `None`. -/
def capture_container_screenshot (w : World) : Option (List ℕ) × List Ev :=
  match w.containerVisible with
  | .error _ => (none, [Ev.captureContainerTry, Ev.logError])
  | .ok false => (none, [Ev.captureContainerTry])
  | .ok true =>
    match w.containerShot with
    | .error _ => (none, [Ev.captureContainerTry, Ev.logError])
    | .ok data => (some data, [Ev.captureContainerTry, Ev.logInfo])

/-- Python truthiness of `bytes | None`: `None` and the empty byte string
are falsy. -/
def bytesTruthy : Option (List ℕ) → Bool
  | none => false
  | some b => !b.isEmpty

/-- Source `capture_heatmap`: return the canvas capture when it is truthy;
otherwise log and fall back to the container capture. -/
def capture_heatmap (w : World) : Option (List ℕ) × List Ev :=
  match capture_canvas_screenshot w with
  | (shot, tr) =>
    if bytesTruthy shot then (shot, tr)
    else
      match capture_container_screenshot w with
      | (shot2, tr2) => (shot2, tr ++ [Ev.logInfo] ++ tr2)

/-- Source `screenshot_heatmap`: open the page (propagating anything it
raises; returning `None` on its `False`), then run the two selection
procedures — discarding `select_time_range`'s returned key — and the capture
chain. -/
def screenshot_heatmap (w : World) (coin exchange quote_currency time_range : String) :
    Except Err (Option (List ℕ)) × List Ev :=
  match open_heatmap_page w with
  | (.error e, tr) => (.error e, tr)
  | (.ok false, tr) => (.ok none, tr)
  | (.ok true, tr) =>
    let pairTrace := select_pair w coin exchange quote_currency
    match select_time_range w time_range with
    | (_, timeTrace) =>
      match capture_heatmap w with
      | (shot, capTrace) => (.ok shot, tr ++ pairTrace ++ timeTrace ++ capTrace)

/-- The output dict's shared portion, source `build_base_output`: the
caller's raw coin, exchange, quote currency, and time range, verbatim. -/
structure BaseOutput where
  coin : String
  exchange : String
  quoteCurrency : String
  timeRange : String
deriving DecidableEq, Repr

/-- Source `build_base_output`. -/
def build_base_output (coin exchange quote_currency time_range : String) : BaseOutput :=
  { coin := coin, exchange := exchange, quoteCurrency := quote_currency, timeRange := time_range }

/-- The final output object `main` stores and pushes. -/
structure Output extends BaseOutput where
  success : Bool
  error : Option String := none
  filename : Option String := none
  url : Option String := none
  timestamp : Option String := none
deriving DecidableEq, Repr

/-- The stored filename, from source `main`:
`f"{exchange}_{coin}{quote_currency}_{time_range}_{timestamp}.png"`. -/
def mk_filename (exchange coin quote_currency time_range ts : String) : String :=
  exchange ++ "_" ++ coin ++ quote_currency ++ "_" ++ time_range ++ "_" ++ ts ++ ".png"

instance {ε α : Type} [DecidableEq ε] [DecidableEq α] : DecidableEq (Except ε α)
  | .ok a, .ok b =>
    if h : a = b then .isTrue (h ▸ rfl) else .isFalse (fun hh => h (Except.ok.inj hh))
  | .error a, .error b =>
    if h : a = b then .isTrue (h ▸ rfl) else .isFalse (fun hh => h (Except.error.inj hh))
  | .ok _, .error _ => .isFalse Except.noConfusion
  | .error _, .ok _ => .isFalse Except.noConfusion

/-- Source `main` (renamed: Lean reserves `main` for executable entry
points), after the host has parsed and defaulted the inputs: run
`screenshot_heatmap` (any exception it raises propagates — no output object
is produced then), and build the failure or success output from the raw
inputs; `ts` stands for `datetime.now().strftime(...)`. -/
def main_run (w : World) (coin exchange quote_currency time_range ts : String) :
    Except Err Output × List Ev :=
  match screenshot_heatmap w coin exchange quote_currency time_range with
  | (.error e, tr) => (.error e, tr)
  | (.ok shot, tr) =>
    if !bytesTruthy shot then
      (.ok { toBaseOutput := build_base_output coin exchange quote_currency time_range,
             success := false, error := some "截图失败" },
        tr ++ [Ev.logError])
    else
      (.ok { toBaseOutput := build_base_output coin exchange quote_currency time_range,
             success := true,
             filename := some (mk_filename exchange coin quote_currency time_range ts),
             url := some w.publicUrl,
             timestamp := some ts },
        tr ++ [Ev.logInfo])

/-- A response is missed by a correlation listener exactly when it arrives
strictly before the listener is armed; `armPos`/`arrivalPos` are positions
in program order. -/
def responseCaptured (armPos arrivalPos : ℕ) : Bool :=
  armPos ≤ arrivalPos

/-- The listener-before-action ordering property of a trace: every
occurrence of the action event is strictly preceded by an occurrence of the
arming event. -/
def armedBefore (tr : List Ev) (action : Ev) : Prop :=
  ∀ j, tr.get? j = some action → ∃ i, i < j ∧ tr.get? i = some Ev.arm

/-! ## Helper lemmas -/

theorem canvasLoop_count_ge (l : List Sample) :
    ∀ lastv stable, canvasLoop l lastv stable = true →
      2 - stable ≤ l.countP contentPresent := by
  induction l with
  | nil => intro lastv stable h; simp [canvasLoop] at h
  | cons s rest ih =>
    intro lastv stable h
    cases s with
    | exc =>
      rw [canvasLoop] at h
      have := ih lastv stable h
      simp only [List.countP_cons, contentPresent]
      omega
    | probe ready r =>
      rw [canvasLoop] at h
      by_cases hcp : (ready && decide ((1 : ℚ)/10 < r)) = true
      · have hpos : contentPresent (.probe ready r) = true := by
          simpa [contentPresent] using hcp
        rw [if_pos hcp] at h
        by_cases hd : |r - lastv| < 1/100
        · rw [if_pos hd] at h
          by_cases hst : 2 ≤ stable + 1
          · simp [List.countP_cons, hpos]
            omega
          · rw [if_neg hst] at h
            have := ih r (stable + 1) h
            simp [List.countP_cons, hpos]
            omega
        · rw [if_neg hd] at h
          have := ih r 0 h
          simp [List.countP_cons, hpos]
          omega
      · rw [if_neg hcp] at h
        have := ih lastv stable h
        simp only [List.countP_cons, contentPresent]
        omega

theorem canvasLoop_low_start (l : List Sample) :
    ∀ lastv : ℚ, lastv ≤ 9/100 → canvasLoop l lastv 0 = true →
      3 ≤ l.countP contentPresent := by
  induction l with
  | nil => intro lastv _ h; simp [canvasLoop] at h
  | cons s rest ih =>
    intro lastv hle h
    cases s with
    | exc =>
      rw [canvasLoop] at h
      have := ih lastv hle h
      simp only [List.countP_cons, contentPresent]
      omega
    | probe ready r =>
      rw [canvasLoop] at h
      by_cases hcp : (ready && decide ((1 : ℚ)/10 < r)) = true
      · have hpos : contentPresent (.probe ready r) = true := by
          simpa [contentPresent] using hcp
        have hr : (1 : ℚ)/10 < r := of_decide_eq_true ((Bool.and_eq_true _ _).mp hcp).2
        have hd : ¬ |r - lastv| < 1/100 := by
          have h1 : (1 : ℚ)/100 < r - lastv := by linarith
          have h2 : r - lastv ≤ |r - lastv| := le_abs_self _
          linarith
        rw [if_pos hcp, if_neg hd] at h
        have := canvasLoop_count_ge rest r 0 h
        simp [List.countP_cons, hpos]
        omega
      · rw [if_neg hcp] at h
        have := ih lastv hle h
        simp only [List.countP_cons, contentPresent]
        omega

theorem canvasLoop_append_exc (pre suf : List Sample) :
    ∀ lastv stable,
      canvasLoop (pre ++ .exc :: suf) lastv stable = canvasLoop (pre ++ suf) lastv stable := by
  induction pre with
  | nil => intro lastv stable; rfl
  | cons s rest ih =>
    intro lastv stable
    cases s with
    | exc => simpa only [List.cons_append, canvasLoop] using ih lastv stable
    | probe ready r =>
      simp only [List.cons_append, canvasLoop]
      split_ifs <;> first | rfl | apply ih

theorem armedBefore_of_arm_head (tr : List Ev) (a : Ev) (h : a ≠ Ev.arm) :
    armedBefore (Ev.arm :: tr) a := by
  intro j hj
  cases j with
  | zero => simp at hj; exact absurd hj.symm h
  | succ n => exact ⟨0, Nat.succ_pos n, rfl⟩

theorem armedBefore_cons (e a : Ev) (tr : List Ev) (h : e ≠ a) (ih : armedBefore tr a) :
    armedBefore (e :: tr) a := by
  intro j hj
  cases j with
  | zero => simp at hj; exact absurd hj h
  | succ n =>
    obtain ⟨i, hi, harm⟩ := ih n (by simpa using hj)
    exact ⟨i + 1, by omega, by simpa using harm⟩

theorem armedBefore_of_not_mem (tr : List Ev) (a : Ev) (h : a ∉ tr) : armedBefore tr a := by
  intro j hj
  exact absurd (List.get?_mem hj) h

theorem armedBefore_append (pre tr : List Ev) (a : Ev) (hpre : a ∉ pre)
    (h : armedBefore tr a) : armedBefore (pre ++ tr) a := by
  induction pre with
  | nil => simpa using h
  | cons e es ih =>
    rw [List.cons_append]
    exact armedBefore_cons e a _ (fun he => hpre (by rw [he]; exact List.mem_cons_self a es))
      (ih (fun hm => hpre (List.mem_cons_of_mem _ hm)))

theorem get_time_label_trace (t : String) :
    (get_time_label t).2 = [] ∨ (get_time_label t).2 = [Ev.logWarn] := by
  rw [get_time_label]
  rcases mapGet TIME_RANGE_MAP t with _ | label
  · exact Or.inr rfl
  · dsimp only
    by_cases hl : label ≠ "" <;> simp [hl]

theorem mapGet_eq_none_of_no_key (m : List (String × String)) (k : String)
    (h : ∀ p ∈ m, p.1 ≠ k) : mapGet m k = none := by
  induction m with
  | nil => rfl
  | cons p rest ih =>
    obtain ⟨k', v⟩ := p
    have hne : ¬ ((k' == k) = true) := by
      intro hbeq
      exact h (k', v) (List.mem_cons_self _ _) (by simpa using hbeq)
    rw [mapGet, if_neg hne]
    exact ih (fun q hq => h q (List.mem_cons_of_mem _ hq))

theorem capture_canvas_trace_head (w : World) :
    ∃ rest, (capture_canvas_screenshot w).2 = Ev.captureCanvasTry :: rest := by
  unfold capture_canvas_screenshot
  repeat' split
  all_goals exact ⟨_, rfl⟩

theorem containerTry_not_mem_canvas_trace (w : World) :
    Ev.captureContainerTry ∉ (capture_canvas_screenshot w).2 := by
  unfold capture_canvas_screenshot
  repeat' split
  all_goals simp

theorem containerTry_count_container_trace (w : World) :
    ((capture_container_screenshot w).2).count Ev.captureContainerTry = 1 := by
  unfold capture_container_screenshot
  repeat' split
  all_goals simp

theorem container_trace_cases (w : World) :
    (capture_container_screenshot w).2 = [Ev.captureContainerTry, Ev.logError]
    ∨ (capture_container_screenshot w).2 = [Ev.captureContainerTry]
    ∨ (capture_container_screenshot w).2 = [Ev.captureContainerTry, Ev.logInfo] := by
  unfold capture_container_screenshot
  repeat' split
  all_goals simp

theorem canvasTry_mem_capture (w : World) :
    Ev.captureCanvasTry ∈ (capture_heatmap w).2 := by
  obtain ⟨rest, hr⟩ := capture_canvas_trace_head w
  unfold capture_heatmap
  rcases hc : capture_canvas_screenshot w with ⟨shot, tr⟩
  rw [hc] at hr
  simp only at hr
  by_cases ht : bytesTruthy shot <;> simp [ht, hr]

theorem screenshot_result_of_open_ok (w : World) (c e q t : String)
    (h : (open_heatmap_page w).1 = .ok true) :
    (screenshot_heatmap w c e q t).1 = .ok (capture_heatmap w).1 := by
  rcases ho : open_heatmap_page w with ⟨r, tro⟩
  rw [ho] at h
  simp only at h
  subst h
  rcases hst : select_time_range w t with ⟨s, str⟩
  rcases hcap : capture_heatmap w with ⟨shot, ctr⟩
  simp [screenshot_heatmap, ho, hst, hcap]

/-- An untroubled run: every oracle takes its default value. -/
def Wdefault : World := {}

/-- A run whose navigation response has HTTP status 404 while the heatmap
API response still arrives (so the correlation resolves). -/
def W404 : World := { goto := .ok (some 404) }

/-- The natural 404 scenario: navigation returns status 404 and the error
page fires no heatmap request, so the correlated response never arrives. -/
def W404noApi : World := { goto := .ok (some 404), initialApi := false }

/-- A run that navigates fine (status 200) but whose initial heatmap API
response never arrives within the timeout. -/
def WnoApi : World := { initialApi := false }

/-- An otherwise untroubled run in which the pair listbox never becomes
visible, so the wait for it raises a timeout. -/
def WpairListboxDown : World := { pairListbox := .error Err.timeout }

/-! ## Claims -/

/-- C2 The render stability detector returns true only after two
consecutive stable comparisons (hence at least three content-present
samples must occur); on the synthetic sequence
`[0.0, 0.05, 0.30, 0.305, 0.306]` it returns `true` by the 5th sample (and
not yet by the 4th), and returns `false` if only 3 samples are available. -/
theorem C2_render_stability :
    wait_for_canvas_ready
        [.probe true 0, .probe true (1/20), .probe true (3/10),
         .probe true (305/1000), .probe true (306/1000)] = true
    ∧ wait_for_canvas_ready
        [.probe true 0, .probe true (1/20), .probe true (3/10)] = false
    ∧ wait_for_canvas_ready
        [.probe true 0, .probe true (1/20), .probe true (3/10), .probe true (305/1000)] = false
    ∧ (∀ samples, wait_for_canvas_ready samples = true →
        3 ≤ samples.countP contentPresent) := by
  refine ⟨by decide, by decide, by decide, ?_⟩
  intro samples h
  exact canvasLoop_low_start samples (-1) (by norm_num) h

/-- C2 witness: the general only-after-three-content-present-samples part
applied to the synthetic 5-sample sequence. -/
theorem C2_witness :
    3 ≤ List.countP contentPresent
        [.probe true 0, .probe true (1/20), .probe true (3/10),
         .probe true (305/1000), .probe true (306/1000)] :=
  C2_render_stability.2.2.2
    [.probe true 0, .probe true (1/20), .probe true (3/10),
     .probe true (305/1000), .probe true (306/1000)] (by decide)

/-- C7 counterexample: the claim says a sampling error "resets the
stability counter to zero".  On the sample sequence
`[0.30, 0.305, error, 0.306]` the source loop returns `true` (the error
left `stable_count = 1` untouched, so the 4th sample completes the second
stable comparison), whereas the reset variant the claim describes returns
`false` on the same sequence. -/
theorem C7_counterexample :
    wait_for_canvas_ready
        [.probe true (3/10), .probe true (305/1000), .exc, .probe true (306/1000)] = true
    ∧ canvasLoopSpecReset
        [.probe true (3/10), .probe true (305/1000), .exc, .probe true (306/1000)] (-1) 0 = false :=
  ⟨by decide, by decide⟩

/-- C7 (amended) Inside the render stability detector's polling loop, any
sampling error — and likewise any non-content-present probe — is skipped:
it leaves both the stability counter and the last ratio unchanged and the
loop continues to the next poll rather than aborting (deleting an error
sample anywhere never changes the outcome); if the samples run out
(timeout) without two consecutive stable comparisons the call returns
`false` rather than raising. -/
theorem C7_sampling_error_is_skipped :
    (∀ rest lastv stable,
      canvasLoop (.exc :: rest) lastv stable = canvasLoop rest lastv stable)
    ∧ (∀ rest lastv stable r,
      canvasLoop (.probe false r :: rest) lastv stable = canvasLoop rest lastv stable)
    ∧ (∀ pre suf lastv stable,
      canvasLoop (pre ++ .exc :: suf) lastv stable = canvasLoop (pre ++ suf) lastv stable)
    ∧ (∀ lastv stable, canvasLoop [] lastv stable = false) := by
  refine ⟨fun rest lastv stable => rfl, fun rest lastv stable r => by simp [canvasLoop], ?_, fun lastv stable => rfl⟩
  intro pre suf lastv stable
  exact canvasLoop_append_exc pre suf lastv stable

/-- C9 For every key present in `TIME_RANGE_MAP`, resolution returns that
key unchanged paired with its exact display label and no warning; for any
key not in the mapping it returns `("24h", "24 hour")` and emits a warning
— resolution never yields an unresolved label. -/
theorem C9_time_label_resolution :
    (∀ k label, (k, label) ∈ TIME_RANGE_MAP → get_time_label k = ((k, label), []))
    ∧ (∀ k, (∀ p ∈ TIME_RANGE_MAP, p.1 ≠ k) →
        get_time_label k = (("24h", "24 hour"), [Ev.logWarn])) := by
  constructor
  · intro k label h
    fin_cases h <;> rfl
  · intro k h
    rw [get_time_label, mapGet_eq_none_of_no_key _ _ h]

/-- C9 witness: resolution of the mapped key `12h` and of the unmapped key
`99h`. -/
theorem C9_witness :
    get_time_label "12h" = (("12h", "12 hour"), [])
    ∧ get_time_label "99h" = (("24h", "24 hour"), [Ev.logWarn]) :=
  ⟨C9_time_label_resolution.1 "12h" "12 hour" (by decide),
   C9_time_label_resolution.2 "99h" (by decide)⟩

/-- C1 For the initial navigation, the pair selection, and the time-range
selection alike, the response listener (predicate: URL contains the heatmap
API keyword and status equals 200) is armed strictly before the action
expected to produce the matching response (the `goto`, resp. the option
click): every occurrence of the action event in the emitted trace is
strictly preceded by an arming event.  Consequently a response arriving at
or after the action's position — in particular one resolving synchronously
within the action — is at or after the arming position, hence captured, not
missed. -/
theorem C1_listener_armed_before_action :
    (∀ w, armedBefore (open_heatmap_page w).2 Ev.gotoCall)
    ∧ (∀ w coin exchange quote lbl,
        armedBefore (select_pair w coin exchange quote) (Ev.pairOptionClick lbl))
    ∧ (∀ w t lbl, armedBefore (select_time_range w t).2 (Ev.timeOptionClick lbl))
    ∧ (∀ armPos actPos arrivalPos, armPos < actPos → actPos ≤ arrivalPos →
        responseCaptured armPos arrivalPos = true)
    ∧ (∀ r, is_heatmap_response r = true ↔
        (strContains r.url HEATMAP_API_KEYWORD = true ∧ r.status = 200)) := by
  refine ⟨?_, ?_, ?_, ?_, ?_⟩
  · intro w
    rcases hg : w.goto with e | (_ | st)
    · simp only [open_heatmap_page, hg]
      split_ifs <;> exact armedBefore_of_arm_head _ _ (by simp)
    · simp only [open_heatmap_page, hg, open_heatmap_rest]
      split_ifs <;>
        · simp only [List.cons_append, List.nil_append]
          exact armedBefore_of_arm_head _ _ (by simp)
    · simp only [open_heatmap_page, hg, open_heatmap_rest]
      split_ifs <;>
        · simp only [List.cons_append, List.nil_append]
          exact armedBefore_of_arm_head _ _ (by simp)
  · intro w coin exchange quote lbl
    by_cases hskip : (exchange == "Binance" && quote == "USDT") = true
    · rw [select_pair, if_pos hskip]
      exact armedBefore_of_not_mem _ _ (by simp)
    · rw [select_pair, if_neg hskip]
      refine armedBefore_append [Ev.logInfo, Ev.pairComboClick] _ _ (by simp) ?_
      rcases hc : w.pairCombo with e1 | u1
      · simp only [hc]
        exact armedBefore_of_not_mem _ _ (by simp)
      · simp only [hc]
        refine armedBefore_cons _ _ _ (by simp) ?_
        rcases hl : w.pairListbox with e2 | u2
        · simp only [hl]
          exact armedBefore_of_not_mem _ _ (by simp)
        · simp only [hl]
          rcases hk : w.pairClick with e3 | u3
          · simp only [wait_for_heatmap_update, hk, List.cons_append, List.nil_append]
            exact armedBefore_of_arm_head _ _ (by simp)
          · rcases ha : w.pairApi
            · simp only [wait_for_heatmap_update, hk, ha, if_neg, Bool.false_eq_true,
                List.cons_append, List.nil_append, if_false]
              exact armedBefore_of_arm_head _ _ (by simp)
            · simp only [wait_for_heatmap_update, hk, ha, List.cons_append, List.nil_append,
                if_true]
              exact armedBefore_of_arm_head _ _ (by simp)
  · intro w t lbl
    rcases hg : get_time_label t with ⟨⟨tr0, lb0⟩, gtl⟩
    have hgtl : gtl = [] ∨ gtl = [Ev.logWarn] := by
      have htl := get_time_label_trace t
      rw [hg] at htl
      simpa using htl
    have hnm : Ev.timeOptionClick lbl ∉ gtl := by
      rcases hgtl with h | h <;> simp [h]
    simp only [select_time_range, hg]
    by_cases hsk : (tr0 == "24h") = true
    · rw [if_pos hsk]
      exact armedBefore_of_not_mem _ _ hnm
    · rw [if_neg hsk]
      simp only [List.append_assoc]
      refine armedBefore_append gtl _ _ hnm ?_
      refine armedBefore_append [Ev.logInfo, Ev.timeComboClick] _ _ (by simp) ?_
      rcases hc : w.timeCombo with e1 | u1
      · simp only [hc]
        exact armedBefore_of_not_mem _ _ (by simp)
      · simp only [hc]
        refine armedBefore_cons _ _ _ (by simp) ?_
        rcases hl : w.timeListbox with e2 | u2
        · simp only [hl]
          exact armedBefore_of_not_mem _ _ (by simp)
        · simp only [hl]
          rcases hk : w.timeClick with e3 | u3
          · simp only [wait_for_heatmap_update, hk, List.cons_append, List.nil_append]
            exact armedBefore_of_arm_head _ _ (by simp)
          · rcases ha : w.timeApi
            · simp only [wait_for_heatmap_update, hk, ha, Bool.false_eq_true,
                List.cons_append, List.nil_append, if_false]
              exact armedBefore_of_arm_head _ _ (by simp)
            · simp only [wait_for_heatmap_update, hk, ha, List.cons_append, List.nil_append,
                if_true]
              exact armedBefore_of_arm_head _ _ (by simp)
  · intro armPos actPos arrivalPos h1 h2
    simp only [responseCaptured, decide_eq_true_eq]
    omega
  · intro r
    simp [is_heatmap_response, Bool.and_eq_true, beq_iff_eq]

/-- C1 witness: on the untroubled default run, the navigation trace has the
`goto` at position 1, and the theorem produces an arming event strictly
before it (position 0). -/
theorem C1_witness :
    ∃ i, i < 1 ∧ (open_heatmap_page Wdefault).2.get? i = some Ev.arm :=
  C1_listener_armed_before_action.1 Wdefault 1 (by decide)

/-- C3 counterexample: with navigation status 404 and no arriving heatmap
API response (the natural 404 scenario — the error page fires no heatmap
request), the correlation timeout raised at the `expect_response` block
exit propagates before the status check is ever reached: the run ends with
the error, its trace is only the arming, the navigation, and the failed
await (no error log, no selection, no capture), and no output object — in
particular no `success=false` result — is produced, contradicting the
claim that the final result has `success=false`. -/
theorem C3_counterexample :
    main_run W404noApi "BTC" "Binance" "USDT" "24h" "T" =
      (.error Err.timeout, [Ev.arm, Ev.gotoCall, Ev.awaitValue]) := by
  decide

/-- C3 (amended) If the navigation's transport-level response has status
`>= 400`, no pair selection, no time-range selection, and no capture is
ever attempted.  Whether a `success=false` output is produced depends on
the initial correlation, which Playwright awaits at the `expect_response`
block exit, before the status check: if a matching heatmap response
arrived within the timeout, the pipeline returns `False`,
`screenshot_heatmap` yields `None`, and the final output has
`success := false` with no filename (no image artifact); if none arrived,
the timeout raised at block exit propagates and the run aborts with the
error, producing no output object at all. -/
theorem C3_hard_failure_on_error_status :
    ∀ w coin exchange quote tr ts st, w.goto = .ok (some st) → 400 ≤ st →
      (Ev.pairComboClick ∉ (main_run w coin exchange quote tr ts).2
        ∧ Ev.timeComboClick ∉ (main_run w coin exchange quote tr ts).2
        ∧ Ev.captureCanvasTry ∉ (main_run w coin exchange quote tr ts).2
        ∧ Ev.captureContainerTry ∉ (main_run w coin exchange quote tr ts).2)
      ∧ (w.initialApi = true →
          (screenshot_heatmap w coin exchange quote tr).1 = .ok none
          ∧ (screenshot_heatmap w coin exchange quote tr).2 =
              [Ev.arm, Ev.gotoCall, Ev.awaitValue, Ev.logError]
          ∧ (main_run w coin exchange quote tr ts).1 =
              .ok { toBaseOutput := build_base_output coin exchange quote tr,
                    success := false, error := some "截图失败" })
      ∧ (w.initialApi = false →
          main_run w coin exchange quote tr ts =
            (.error Err.timeout, [Ev.arm, Ev.gotoCall, Ev.awaitValue])) := by
  intro w c e q t ts st hg h4
  cases ha : w.initialApi
  · have hop : open_heatmap_page w =
        (.error Err.timeout, [Ev.arm, Ev.gotoCall, Ev.awaitValue]) := by
      simp [open_heatmap_page, hg, ha]
    have hmain : main_run w c e q t ts =
        (.error Err.timeout, [Ev.arm, Ev.gotoCall, Ev.awaitValue]) := by
      simp [main_run, screenshot_heatmap, hop]
    exact ⟨⟨by rw [hmain]; decide, by rw [hmain]; decide, by rw [hmain]; decide,
        by rw [hmain]; decide⟩,
      fun h => Bool.noConfusion h,
      fun _ => hmain⟩
  · have hop : open_heatmap_page w =
        (.ok false, [Ev.arm, Ev.gotoCall, Ev.awaitValue, Ev.logError]) := by
      simp [open_heatmap_page, hg, ha, if_pos h4]
    have hs : screenshot_heatmap w c e q t =
        (.ok none, [Ev.arm, Ev.gotoCall, Ev.awaitValue, Ev.logError]) := by
      simp [screenshot_heatmap, hop]
    have hmain2 : (main_run w c e q t ts).2 =
        [Ev.arm, Ev.gotoCall, Ev.awaitValue, Ev.logError, Ev.logError] := by
      simp [main_run, hs, bytesTruthy]
    exact ⟨⟨by rw [hmain2]; decide, by rw [hmain2]; decide, by rw [hmain2]; decide,
        by rw [hmain2]; decide⟩,
      fun _ => ⟨by rw [hs], by rw [hs], by simp [main_run, hs, bytesTruthy]⟩,
      fun h => Bool.noConfusion h⟩

/-- C3 witness: the hard-failure output branch at a concrete 404 run whose
heatmap response did arrive, and the no-capture conclusion there. -/
theorem C3_witness :
    (screenshot_heatmap W404 "BTC" "Binance" "USDT" "24h").1 = .ok none
    ∧ Ev.captureCanvasTry ∉ (main_run W404 "BTC" "Binance" "USDT" "24h" "T").2 :=
  ⟨((C3_hard_failure_on_error_status W404 "BTC" "Binance" "USDT" "24h" "T" 404 rfl
      (by decide)).2.1 rfl).1,
   (C3_hard_failure_on_error_status W404 "BTC" "Binance" "USDT" "24h" "T" 404 rfl
      (by decide)).1.2.2.1⟩

/-- C4 counterexample: with a successful navigation (default status 200)
whose correlated initial heatmap response never arrives, the run does not
log a warning and does not continue through interaction and capture — it
propagates the timeout error, producing no output object, and its trace
contains no warning, no selection interaction, and no capture attempt;
this contradicts the claimed warn-and-continue (soft failure) behavior. -/
theorem C4_counterexample :
    (main_run WnoApi "BTC" "Binance" "USDT" "24h" "T").1 = .error Err.timeout
    ∧ Ev.logWarn ∉ (main_run WnoApi "BTC" "Binance" "USDT" "24h" "T").2
    ∧ Ev.pairComboClick ∉ (main_run WnoApi "BTC" "Binance" "USDT" "24h" "T").2
    ∧ Ev.captureCanvasTry ∉ (main_run WnoApi "BTC" "Binance" "USDT" "24h" "T").2
    ∧ Ev.captureContainerTry ∉ (main_run WnoApi "BTC" "Binance" "USDT" "24h" "T").2 :=
  ⟨by decide, by decide, by decide, by decide, by decide⟩

/-- C4 (amended) When navigation itself succeeds (null response or status
below 400) but the correlated initial heatmap API response does not arrive
within the timeout, the timeout error raised by awaiting the correlation
propagates uncaught out of the pipeline: the run ends with the error, its
trace is exactly the arming, the navigation, and the failed await — no
warning is logged for it and no interaction or capture is attempted. -/
theorem C4_initial_timeout_propagates :
    ∀ w coin exchange quote tr ts,
      (w.goto = .ok none ∨ ∃ st, w.goto = .ok (some st) ∧ st < 400) →
      w.initialApi = false →
      main_run w coin exchange quote tr ts =
        (.error Err.timeout, [Ev.arm, Ev.gotoCall, Ev.awaitValue]) := by
  intro w c e q t ts hnav hapi
  have hop : open_heatmap_page w = (.error Err.timeout, [Ev.arm, Ev.gotoCall, Ev.awaitValue]) := by
    rcases hnav with hg | ⟨st, hg, _⟩
    · simp [open_heatmap_page, hg, hapi]
    · simp [open_heatmap_page, hg, hapi]
  simp [main_run, screenshot_heatmap, hop]

/-- C4 witness: the amended behavior at a concrete run with status 200 and
no arriving API response. -/
theorem C4_witness :
    main_run WnoApi "BTC" "Binance" "USDT" "24h" "T" =
      (.error Err.timeout, [Ev.arm, Ev.gotoCall, Ev.awaitValue]) :=
  C4_initial_timeout_propagates WnoApi "BTC" "Binance" "USDT" "24h" "T"
    (Or.inr ⟨200, rfl, by omega⟩) rfl

/-- C5 The capture chain tries the canvas strategy first: it yields bytes
only when the first canvas element is visible and its bounding box is wider
than 500 and taller than 300; the container fallback appears in the chain's
trace exactly once when the canvas strategy yields nothing (falsy bytes)
and never otherwise; the chain returns `None` only when the canvas strategy
yielded nothing and the container strategy returned `None`; and when both
strategies raise, the chain still returns `None` with the errors logged —
no capture error propagates (every modelled raise is consumed inside the
chain, whose result type is a plain `Option`). -/
theorem C5_capture_chain :
    (∀ w b, (capture_canvas_screenshot w).1 = some b →
      w.canvasVisible = .ok true
      ∧ ∃ bw bh, w.canvasBox = .ok (some (bw, bh)) ∧ 500 < bw ∧ 300 < bh)
    ∧ (∀ w, ((capture_heatmap w).2).count Ev.captureContainerTry =
        if bytesTruthy (capture_canvas_screenshot w).1 then 0 else 1)
    ∧ (∀ w, (capture_heatmap w).1 = none →
        bytesTruthy (capture_canvas_screenshot w).1 = false
        ∧ (capture_container_screenshot w).1 = none)
    ∧ (∀ w e₁ e₂, w.canvasVisible = .error e₁ → w.containerVisible = .error e₂ →
        (capture_heatmap w).1 = none
        ∧ Ev.logError ∈ (capture_heatmap w).2
        ∧ ((capture_heatmap w).2).count Ev.captureContainerTry = 1) := by
  refine ⟨?_, ?_, ?_, ?_⟩
  · intro w b h
    rcases hv : w.canvasVisible with e | bv
    · simp [capture_canvas_screenshot, hv] at h
    · cases bv
      · simp [capture_canvas_screenshot, hv] at h
      · rcases hb : w.canvasBox with e | (_ | ⟨bw, bh⟩)
        · simp [capture_canvas_screenshot, hv, hb] at h
        · simp [capture_canvas_screenshot, hv, hb] at h
        · by_cases hdim : bw ≤ 500 ∨ bh ≤ 300
          · simp [capture_canvas_screenshot, hv, hb, if_pos hdim] at h
          · push_neg at hdim
            exact ⟨rfl, bw, bh, rfl, hdim.1, hdim.2⟩
  · intro w
    unfold capture_heatmap
    rcases hc : capture_canvas_screenshot w with ⟨shot, tr⟩
    have hnm : Ev.captureContainerTry ∉ tr := by
      have hcm := containerTry_not_mem_canvas_trace w
      rw [hc] at hcm
      exact hcm
    by_cases ht : bytesTruthy shot
    · simp [ht, List.count_eq_zero.mpr hnm]
    · rcases hcc : capture_container_screenshot w with ⟨shot2, tr2⟩
      have hcnt := containerTry_count_container_trace w
      rw [hcc] at hcnt
      simp only at hcnt ⊢
      simp [ht, List.count_append, List.count_eq_zero.mpr hnm, hcnt]
  · intro w h
    unfold capture_heatmap at h
    rcases hc : capture_canvas_screenshot w with ⟨shot, tr⟩
    rw [hc] at h
    dsimp only at h ⊢
    by_cases ht : bytesTruthy shot
    · rw [if_pos ht] at h
      dsimp only at h
      rw [h] at ht
      simp [bytesTruthy] at ht
    · rw [if_neg ht] at h
      have hfalse : bytesTruthy shot = false := by
        revert ht
        cases bytesTruthy shot <;> simp
      rcases hcc : capture_container_screenshot w with ⟨shot2, tr2⟩
      rw [hcc] at h
      dsimp only at h ⊢
      exact ⟨hfalse, h⟩
  · intro w e₁ e₂ hv hcv
    have h1 : capture_canvas_screenshot w = (none, [Ev.captureCanvasTry, Ev.logError]) := by
      simp [capture_canvas_screenshot, hv]
    have h2 : capture_container_screenshot w = (none, [Ev.captureContainerTry, Ev.logError]) := by
      simp [capture_container_screenshot, hcv]
    have hch : capture_heatmap w =
        (none, [Ev.captureCanvasTry, Ev.logError] ++ [Ev.logInfo] ++
          [Ev.captureContainerTry, Ev.logError]) := by
      simp [capture_heatmap, h1, h2, bytesTruthy]
    rw [hch]
    refine ⟨rfl, by decide, by decide⟩

/-- C5 witness: on the untroubled default run the canvas strategy yields
bytes, so the theorem recovers that the canvas was visible with an
eligible bounding box. -/
theorem C5_witness :
    Wdefault.canvasVisible = .ok true
    ∧ ∃ bw bh, Wdefault.canvasBox = .ok (some (bw, bh)) ∧ 500 < bw ∧ 300 < bh :=
  C5_capture_chain.1 Wdefault [1] (by decide)

/-- C6 counterexample: the claim says pair selection is skipped exactly
when exchange, coin, and quote currency all equal the defaults
Binance/BTC/USDT.  But with coin `ETH` (≠ `BTC`), exchange `Binance`, and
quote `USDT` the procedure still skips — it attempts no interaction at all
(empty trace) — because the source never consults the coin. -/
theorem C6_counterexample :
    select_pair Wdefault "ETH" "Binance" "USDT" = [] ∧ ("ETH" : String) ≠ "BTC" :=
  ⟨by decide, by decide⟩

/-- C6 (amended) Pair selection attempts an interaction exactly when the
exchange differs from `Binance` or the quote currency differs from `USDT` —
the coin is not consulted (it is already fixed by the page URL); time-range
selection attempts an interaction exactly when the resolved key differs
from `24h`; and with exchange/quote/time-range at their defaults the
pipeline's trace goes straight from the navigation-and-initial-render trace
to the capture trace, with no selection events in between. -/
theorem C6_default_skip :
    (∀ w coin exchange quote,
      Ev.pairComboClick ∈ select_pair w coin exchange quote
        ↔ ¬(exchange = "Binance" ∧ quote = "USDT"))
    ∧ (∀ w t, Ev.timeComboClick ∈ (select_time_range w t).2
        ↔ (get_time_label t).1.1 ≠ "24h")
    ∧ (∀ w coin, (open_heatmap_page w).1 = .ok true →
        (screenshot_heatmap w coin "Binance" "USDT" "24h").2 =
          (open_heatmap_page w).2 ++ (capture_heatmap w).2) := by
  refine ⟨?_, ?_, ?_⟩
  · intro w coin exchange quote
    constructor
    · rintro hmem ⟨he, hq⟩
      rw [select_pair, if_pos (by simp [he, hq])] at hmem
      simp at hmem
    · intro hns
      have hskip : (exchange == "Binance" && quote == "USDT") = false := by
        rcases Bool.eq_false_or_eq_true (exchange == "Binance" && quote == "USDT") with h | h
        · exact absurd (by simpa [Bool.and_eq_true, beq_iff_eq] using h) hns
        · exact h
      rw [select_pair, if_neg (by simp [hskip])]
      simp
  · intro w t
    rcases hg : get_time_label t with ⟨⟨tr0, lb0⟩, gtl⟩
    have hgtl := get_time_label_trace t
    rw [hg] at hgtl
    simp only at hgtl
    simp only [select_time_range, hg]
    by_cases hsk : (tr0 == "24h") = true
    · rw [if_pos hsk]
      have h24 : tr0 = "24h" := by simpa using hsk
      subst h24
      rcases hgtl with h | h <;> simp [h]
    · rw [if_neg hsk]
      have hne : tr0 ≠ "24h" := by simpa using hsk
      simp [hne, List.mem_append]
  · intro w coin hok
    rcases ho : open_heatmap_page w with ⟨r, tro⟩
    rw [ho] at hok
    simp only at hok
    subst hok
    have hsp : select_pair w coin "Binance" "USDT" = [] := rfl
    have hst : select_time_range w "24h" = ("24h", []) := rfl
    rcases hcap : capture_heatmap w with ⟨shot, ctr⟩
    simp [screenshot_heatmap, ho, hsp, hst, hcap]

/-- C6 witness: the straight-to-capture trace shape on the untroubled
default run with all-default inputs. -/
theorem C6_witness :
    (screenshot_heatmap Wdefault "BTC" "Binance" "USDT" "24h").2 =
      (open_heatmap_page Wdefault).2 ++ (capture_heatmap Wdefault).2 :=
  C6_default_skip.2.2 Wdefault "BTC" (by decide)

/-- Does a modelled call raise? -/
def isErr {α : Type} : Except Err α → Bool
  | .error _ => true
  | .ok _ => false

/-- C8 Any exception raised during a selection procedure's interaction
steps (opening the control, waiting for the listbox, clicking the option,
the correlated reload) is caught inside that procedure and logged as a
warning — the procedure's total return type already shows it returns
normally, leaving the chart on its prior configuration; the pipeline then
continues: whenever the page opened, the capture attempt occurs regardless
of the selections' outcomes, and when capture yields truthy bytes the final
output has `success := true`.  (The post-selection stability wait cannot
raise: its model is total and its timeout only logs a warning.) -/
theorem C8_selection_failure_is_soft :
    (∀ w coin exchange quote,
      (exchange == "Binance" && quote == "USDT") = false →
      (isErr w.pairCombo = true ∨ isErr w.pairListbox = true ∨ isErr w.pairClick = true
        ∨ w.pairApi = false) →
      Ev.logWarn ∈ select_pair w coin exchange quote)
    ∧ (∀ w t, (get_time_label t).1.1 ≠ "24h" →
      (isErr w.timeCombo = true ∨ isErr w.timeListbox = true ∨ isErr w.timeClick = true
        ∨ w.timeApi = false) →
      Ev.logWarn ∈ (select_time_range w t).2)
    ∧ (∀ w coin exchange quote t, (open_heatmap_page w).1 = .ok true →
      Ev.captureCanvasTry ∈ (screenshot_heatmap w coin exchange quote t).2)
    ∧ (∀ w coin exchange quote t ts, (open_heatmap_page w).1 = .ok true →
      bytesTruthy (capture_heatmap w).1 = true →
      ∃ out, (main_run w coin exchange quote t ts).1 = .ok out ∧ out.success = true) := by
  refine ⟨?_, ?_, ?_, ?_⟩
  · intro w coin exchange quote hskip hfail
    rw [select_pair, if_neg (by simp [hskip])]
    rcases hc : w.pairCombo with e1 | u1
    · simp
    · rcases hl : w.pairListbox with e2 | u2
      · simp
      · rcases hk : w.pairClick with e3 | u3
        · simp [wait_for_heatmap_update]
        · rcases ha : w.pairApi
          · simp [wait_for_heatmap_update]
          · exfalso
            rcases hfail with h | h | h | h <;> simp_all [isErr]
  · intro w t hne hfail
    rcases hg : get_time_label t with ⟨⟨tr0, lb0⟩, gtl⟩
    rw [hg] at hne
    simp only at hne
    simp only [select_time_range, hg]
    rw [if_neg (by simpa using hne)]
    rcases hc : w.timeCombo with e1 | u1
    · simp
    · rcases hl : w.timeListbox with e2 | u2
      · simp
      · rcases hk : w.timeClick with e3 | u3
        · simp [wait_for_heatmap_update]
        · rcases ha : w.timeApi
          · simp [wait_for_heatmap_update]
          · exfalso
            rcases hfail with h | h | h | h <;> simp_all [isErr]
  · intro w coin exchange quote t hok
    rcases ho : open_heatmap_page w with ⟨r, tro⟩
    rw [ho] at hok
    simp only at hok
    subst hok
    rcases hst : select_time_range w t with ⟨s, str⟩
    rcases hcap : capture_heatmap w with ⟨shot, ctr⟩
    have hmem := canvasTry_mem_capture w
    rw [hcap] at hmem
    simp only at hmem
    simp [screenshot_heatmap, ho, hst, hcap, hmem]
  · intro w coin exchange quote t ts hok ht
    have hres := screenshot_result_of_open_ok w coin exchange quote t hok
    rcases hss : screenshot_heatmap w coin exchange quote t with ⟨r, tr⟩
    rw [hss] at hres
    simp only at hres
    subst hres
    simp [main_run, hss, ht]

/-- C8 witness: with the pair listbox timing out, a warning is logged in
the pair procedure and the run still ends with `success := true`. -/
theorem C8_witness :
    Ev.logWarn ∈ select_pair WpairListboxDown "BTC" "OKX" "USDT"
    ∧ ∃ out, (main_run WpairListboxDown "BTC" "OKX" "USDT" "24h" "T").1 = .ok out
        ∧ out.success = true :=
  ⟨C8_selection_failure_is_soft.1 WpairListboxDown "BTC" "OKX" "USDT" (by decide)
      (Or.inr (Or.inl (by decide))),
   C8_selection_failure_is_soft.2.2.2 WpairListboxDown "BTC" "OKX" "USDT" "24h" "T"
      (by decide) (by decide)⟩

/-- The output of the untroubled default run on the unmapped key `99h`. -/
def out99 : Output :=
  { toBaseOutput := build_base_output "BTC" "Binance" "USDT" "99h",
    success := true,
    filename := some "Binance_BTCUSDT_99h_T.png",
    url := some Wdefault.publicUrl,
    timestamp := some "T" }

/-- C10 On every path that produces an output object — failure and success
alike — the output carries the caller's raw coin, exchange, quote currency,
and time-range values verbatim, and the success filename embeds the raw
time-range key; in particular, for the unmapped key `99h` the time-range
procedure resolves (and returns) the normalized key `24h` and performs no
interaction — so the chart stays on the 24h default — yet the orchestrator
discards that returned key and the output and stored filename still report
`99h`. -/
theorem C10_raw_inputs_in_output :
    (∀ w coin exchange quote tr ts out,
      (main_run w coin exchange quote tr ts).1 = .ok out →
      out.coin = coin ∧ out.exchange = exchange ∧ out.quoteCurrency = quote
        ∧ out.timeRange = tr)
    ∧ (∀ w coin exchange quote tr ts out,
      (main_run w coin exchange quote tr ts).1 = .ok out → out.success = true →
      out.filename = some (mk_filename exchange coin quote tr ts))
    ∧ ((select_time_range Wdefault "99h").1 = "24h"
       ∧ Ev.timeComboClick ∉ (select_time_range Wdefault "99h").2
       ∧ (main_run Wdefault "BTC" "Binance" "USDT" "99h" "T").1 = .ok out99) := by
  refine ⟨?_, ?_, by decide, by decide, by decide⟩
  · intro w coin exchange quote tr ts out h
    unfold main_run at h
    split at h
    · simp at h
    · split at h
      · simp only at h
        rw [Except.ok.injEq] at h
        subst h
        exact ⟨rfl, rfl, rfl, rfl⟩
      · simp only at h
        rw [Except.ok.injEq] at h
        subst h
        exact ⟨rfl, rfl, rfl, rfl⟩
  · intro w coin exchange quote tr ts out h hsucc
    unfold main_run at h
    split at h
    · simp at h
    · split at h
      · simp only at h
        rw [Except.ok.injEq] at h
        subst h
        simp [build_base_output] at hsucc
      · simp only at h
        rw [Except.ok.injEq] at h
        subst h
        rfl

/-- C10 witness: the raw-fields conclusion applied to the concrete `99h`
run. -/
theorem C10_witness :
    out99.coin = "BTC" ∧ out99.exchange = "Binance" ∧ out99.quoteCurrency = "USDT"
      ∧ out99.timeRange = "99h" :=
  C10_raw_inputs_in_output.1 Wdefault "BTC" "Binance" "USDT" "99h" "T" out99 (by decide)
